import Mathlib

/-!
Verification development for the BruteConnect desktop core
(`src-tauri/src/main.rs`).  The Rust code is shallowly embedded: pure
control flow is translated into Lean functions; the external collaborators
(the mDNS network layer `searchlight`, the JSON decoder `serde_json`, the
input-actuation backend `enigo`, the port picker, and the interface
enumerator `if_addrs`) are modelled by explicit oracle parameters, and the
side effects performed through them are recorded in event traces.
Machine integers that the code truncates with Rust `as` casts are modelled
as `Int` with an explicit reduction modulo `2 ^ 32`.
-/

/-! ## JSON values (the shape `serde_json::Value` exposes to this code) -/

/-- A parsed JSON value.  Numbers are modelled as mathematical integers;
`asI64` below reproduces the `as_i64` accessor, which succeeds exactly on
integers representable in a signed 64-bit word. -/
inductive Json where
  | null : Json
  | bool (b : Bool) : Json
  | num (n : Int) : Json
  | str (s : String) : Json
  | arr (elems : List Json) : Json
  | obj (fields : List (String × Json)) : Json

/-- Field lookup in an object's field list (first match). -/
def jsonLookup : List (String × Json) → String → Option Json
  | [], _ => none
  | (k, v) :: rest, key => if k = key then some v else jsonLookup rest key

/-- `Value::get(key)`: `some` only on objects that carry the key. -/
def Json.get (j : Json) (key : String) : Option Json :=
  match j with
  | .obj fields => jsonLookup fields key
  | _ => none

/-- `Value::as_str`. -/
def Json.asStr : Json → Option String
  | .str s => some s
  | _ => none

/-- `Value::as_i64`: the number when it fits a signed 64-bit word. -/
def Json.asI64 : Json → Option Int
  | .num n =>
      if -9223372036854775808 ≤ n ∧ n < 9223372036854775808 then some n else none
  | _ => none

/-- Rust `as i32` truncation: reduce an integer into `[-2^31, 2^31)`
modulo `2^32` (two's complement). -/
def wrap32 (n : Int) : Int :=
  (n + 2147483648) % 4294967296 - 2147483648

/-! ## Actuation calls against the input backend -/

inductive PresKey where
  | leftArrow : PresKey
  | rightArrow : PresKey
deriving DecidableEq

inductive MouseButton where
  | left : MouseButton
  | right : MouseButton
deriving DecidableEq

/-- One call into the `enigo` input-actuation backend. -/
inductive Actuation where
  | keyPress (k : PresKey) : Actuation
  | click (b : MouseButton) : Actuation
  | moveRel (dx dy : Int) : Actuation
  | scroll (amount : Int) : Actuation
deriving DecidableEq

/-! ## Command handlers (`handle_presentation_command`, `handle_cursor_command`)

`enigoOk` models whether `Enigo::new` succeeds; when it fails the handler
returns without any actuation call, exactly as the code does.  Results of
the individual actuation calls are logged and ignored by the code, so the
trace records the calls themselves. -/

/-- `handle_presentation_command` from main.rs: arrow-key presses for the
`left` / `right` actions, nothing for unknown actions. -/
def handle_presentation_command (enigoOk : Bool) (action : String) : List Actuation :=
  if enigoOk = false then []
  else if action = "left" then [.keyPress .leftArrow]
  else if action = "right" then [.keyPress .rightArrow]
  else []

/-- `handle_cursor_command` from main.rs: clicks, relative move and
vertical scroll.  `deltaX`/`deltaY`/`delta` go through `as_i64` and are
then truncated with `as i32`; a missing or non-integer parameter drops the
command without any actuation.  Any direction other than `"up"` negates
the scroll magnitude. -/
def handle_cursor_command (enigoOk : Bool) (action : String) (jsonData : Json) :
    List Actuation :=
  if enigoOk = false then []
  else if action = "left_click" then [.click .left]
  else if action = "right_click" then [.click .right]
  else if action = "move" then
    match (jsonData.get "deltaX").bind Json.asI64 with
    | some dx =>
      match (jsonData.get "deltaY").bind Json.asI64 with
      | some dy => [.moveRel (wrap32 dx) (wrap32 dy)]
      | none => []
    | none => []
  else if action = "scroll" then
    match (jsonData.get "direction").bind Json.asStr with
    | some direction =>
      match (jsonData.get "delta").bind Json.asI64 with
      | some delta =>
          [.scroll (if direction = "up" then wrap32 delta else wrap32 (-(wrap32 delta)))]
      | none => []
    | none => []
  else []

/-- The `match msg_type` dispatch appearing (twice) in
`handle_socket_connection`: route to the presentation or cursor handler,
ignore unknown types. -/
def dispatch_command (enigoOk : Bool) (msgType action : String) (j : Json) :
    List Actuation :=
  if msgType = "presentation" then handle_presentation_command enigoOk action
  else if msgType = "cursor" then handle_cursor_command enigoOk action j
  else []

/-- The nested-`data` branch of `handle_socket_connection`: when the outer
value does not carry both `type` and `action` as strings, a string `data`
field is re-parsed through the external decoder and the same
`type`+`action` dispatch is applied to the inner value. -/
def handle_data_fallback (decode : String → Option Json) (enigoOk : Bool)
    (j : Json) : List Actuation :=
  match (j.get "data").bind Json.asStr with
  | some dataStr =>
    match decode dataStr with
    | some inner =>
      match (inner.get "type").bind Json.asStr with
      | some msgType =>
        match (inner.get "action").bind Json.asStr with
        | some action => dispatch_command enigoOk msgType action inner
        | none => []
      | none => []
    | none => []
  | none => []

/-- The body of the `Ok(n)` arm of `handle_socket_connection`'s read loop,
applied to an already-parsed JSON value: direct `type`+`action` envelope
first, otherwise the nested `data`-string form (re-parsed through the
external decoder `decode`), otherwise nothing. -/
def handle_parsed_message (decode : String → Option Json) (enigoOk : Bool)
    (j : Json) : List Actuation :=
  match (j.get "type").bind Json.asStr with
  | some msgType =>
    match (j.get "action").bind Json.asStr with
    | some action => dispatch_command enigoOk msgType action j
    | none => handle_data_fallback decode enigoOk j
  | none => handle_data_fallback decode enigoOk j

/-- One socket read result: the connection closed (`Ok(0)`), a chunk of
bytes decoded to a message string (`Ok(n)`), or a read error. -/
inductive ReadResult where
  | closed : ReadResult
  | chunk (msg : String) : ReadResult
  | readErr : ReadResult

/-- One iteration of `handle_socket_connection`'s loop: the produced
actuation calls, and whether the loop continues.  `Ok(0)` and read errors
break the loop; every parsed or unparsable chunk leaves it running. -/
def connection_step (decode : String → Option Json) (enigoOk : Bool) :
    ReadResult → List Actuation × Bool
  | .closed => ([], false)
  | .readErr => ([], false)
  | .chunk msg =>
      (match decode msg.trim with
       | some j => handle_parsed_message decode enigoOk j
       | none => [], true)

/-! ## The §4.5 command table (specification side) -/

/-- A row of the spec's command table, with its required parameters. -/
inductive CommandRow where
  | presLeft : CommandRow
  | presRight : CommandRow
  | curLeftClick : CommandRow
  | curRightClick : CommandRow
  | curMove (dx dy : Int) : CommandRow
  | curScroll (direction : String) (delta : Int) : CommandRow
deriving DecidableEq

/-- Following the spec's words: which row of the §4.5 table a
`type`+`action` envelope matches, given the envelope's parameter carrier.
Rows demanding parameters match only when those parameters are present. -/
def table_row (msgType action : String) (j : Json) : Option CommandRow :=
  if msgType = "presentation" then
    if action = "left" then some .presLeft
    else if action = "right" then some .presRight
    else none
  else if msgType = "cursor" then
    if action = "left_click" then some .curLeftClick
    else if action = "right_click" then some .curRightClick
    else if action = "move" then
      match (j.get "deltaX").bind Json.asI64 with
      | some dx =>
        match (j.get "deltaY").bind Json.asI64 with
        | some dy => some (.curMove dx dy)
        | none => none
      | none => none
    else if action = "scroll" then
      match (j.get "direction").bind Json.asStr with
      | some direction =>
        match (j.get "delta").bind Json.asI64 with
        | some delta => some (.curScroll direction delta)
        | none => none
      | none => none
    else none
  else none

/-- Following the spec's words: the row matched (if any) by the nested
form, a JSON string under `data`. -/
def data_row (decode : String → Option Json) (j : Json) : Option CommandRow :=
  match (j.get "data").bind Json.asStr with
  | some dataStr =>
    match decode dataStr with
    | some inner =>
      match (inner.get "type").bind Json.asStr with
      | some msgType =>
        match (inner.get "action").bind Json.asStr with
        | some action => table_row msgType action inner
        | none => none
      | none => none
    | none => none
  | none => none

/-- Following the spec's words: the row matched by a message, either as a
direct envelope or nested as a JSON string under `data`. -/
def envelope_row (decode : String → Option Json) (j : Json) : Option CommandRow :=
  match (j.get "type").bind Json.asStr with
  | some msgType =>
    match (j.get "action").bind Json.asStr with
    | some action => table_row msgType action j
    | none => data_row decode j
  | none => data_row decode j

/-- The actuation call the table prescribes for a row (with the code's
32-bit truncation of parameters). -/
def row_actuation : CommandRow → Actuation
  | .presLeft => .keyPress .leftArrow
  | .presRight => .keyPress .rightArrow
  | .curLeftClick => .click .left
  | .curRightClick => .click .right
  | .curMove dx dy => .moveRel (wrap32 dx) (wrap32 dy)
  | .curScroll direction delta =>
      .scroll (if direction = "up" then wrap32 delta else wrap32 (-(wrap32 delta)))

/-- The actuation calls a matched row gives rise to: exactly one for a
match, none otherwise. -/
def row_calls : Option CommandRow → List Actuation
  | some r => [row_actuation r]
  | none => []

/-! ## Process-wide state and service lifecycle operations

`MdnsState` mirrors the Rust struct of the same name; the live handles the
Rust code stores (`BroadcasterHandle`, `DiscoveryHandle`, the tokio task
handle) are represented by numeric identities drawn from a `nextId`
counter, so that traces can name which handle a shutdown was attempted
on.  Mutexes guard single read-modify-write sections in the code and no
lock is held across the modelled steps, so operations are functions on the
whole state. -/

/-- The `ServiceInfo` struct: the stored record of the live advertisement
(the spec's `ServiceRecord`). -/
structure ServiceInfo where
  service_type : String
  instance_name : String
  port : Nat
  txt : List String
deriving DecidableEq

/-- The data a successful `ServiceBuilder` run accumulated when `build()`
was called: service identity plus the added IP addresses and TXT records. -/
structure BuiltService where
  service_type : String
  instance_name : String
  port : Nat
  ips : List String
  txt : List String
deriving DecidableEq

/-- Observable side effects against the network layer and task runtime. -/
inductive Event where
  | buildSvc (svc : BuiltService) : Event
  | runBc (id : Nat) : Event
  | shutdownBc (id : Nat) : Event
  | runDisc (id : Nat) : Event
  | shutdownDisc (id : Nat) : Event
  | spawnServer (id : Nat) (port : Nat) : Event
  | abortTask (id : Nat) : Event
  | sleepMs (ms : Nat) : Event
deriving DecidableEq

/-- The `MdnsState` struct: all process-wide handle slots. -/
structure MdnsState where
  discovery : Option Nat
  broadcaster : Option Nat
  last_service_info : Option ServiceInfo
  socket_server_port : Option Nat
  socket_server_handle : Option Nat
  nextId : Nat
deriving DecidableEq

/-- The error strings the Rust commands return, as an enumeration.  The
goodbye errors carry the cycle number interpolated into the message. -/
inductive SvcError where
  | socketServerNotStarted : SvcError
  | noAddress : SvcError
  | invalidServiceParams : SvcError
  | serviceBuildFailed : SvcError
  | broadcasterBuildFailed : SvcError
  | broadcastShutdownFailed : SvcError
  | invalidServiceType : SvcError
  | discoveryBuildFailed : SvcError
  | discoveryShutdownFailed : SvcError
  | noUnusedPort : SvcError
  | goodbyeNoAddress : SvcError
  | goodbyeInvalidParams (cycle : Nat) : SvcError
  | goodbyeServiceBuildFailed (cycle : Nat) : SvcError
  | goodbyeBroadcasterBuildFailed (cycle : Nat) : SvcError
  | goodbyeShutdownFailed : SvcError
deriving DecidableEq

/-- A Tauri command result: `Result<α, String>` with the error strings
enumerated. -/
inductive CmdResult (α : Type) where
  | ok (val : α) : CmdResult α
  | err (e : SvcError) : CmdResult α
deriving DecidableEq

/-- Outcome of one lifecycle operation: result, post-state and the trace
of effects it performed, in order. -/
structure OpOut (α : Type) where
  res : CmdResult α
  st : MdnsState
  tr : List Event

/-- The service the code assembles from a stored record plus the
enumerated local addresses. -/
def built_service_of (info : ServiceInfo) (ips : List String) : BuiltService :=
  ⟨info.service_type, info.instance_name, info.port, ips, info.txt⟩

/-- External-world outcomes `register_service` consumes: the `local_ips()`
enumeration and the success of the three fallible network-layer builders. -/
structure RegEnv where
  ips : List String
  svcNewOk : Bool
  svcBuildOk : Bool
  bcBuildOk : Bool

/-- `register_service` from main.rs.  Requires a running socket server
(checked first), then a non-empty address list, then valid service
parameters; on success the new broadcaster is built and started, the
previous one (if any) is then shut down best-effort, and the service info
is stored. -/
def register_service (env : RegEnv) (st : MdnsState)
    (service_type instance_name : String) (port : Nat) (txt : List String) :
    OpOut Unit :=
  match st.socket_server_port with
  | none => ⟨.err .socketServerNotStarted, st, []⟩
  | some socketPort =>
    if env.ips = [] then ⟨.err .noAddress, st, []⟩
    else if env.svcNewOk = false then ⟨.err .invalidServiceParams, st, []⟩
    else
      let enhancedTxt := txt ++ ["socketPort=" ++ toString socketPort]
      let info : ServiceInfo := ⟨service_type, instance_name, port, enhancedTxt⟩
      if env.svcBuildOk = false then ⟨.err .serviceBuildFailed, st, []⟩
      else if env.bcBuildOk = false then ⟨.err .broadcasterBuildFailed, st, []⟩
      else
        let newId := st.nextId
        let prevTr : List Event :=
          match st.broadcaster with
          | some old => [.shutdownBc old]
          | none => []
        ⟨.ok (),
         { st with broadcaster := some newId, last_service_info := some info,
                   nextId := newId + 1 },
         [.buildSvc ⟨service_type, instance_name, port, env.ips, enhancedTxt⟩,
          .runBc newId] ++ prevTr⟩

/-- External-world outcomes `send_goodbye_message` consumes, indexed by
cycle number (0 is the first advertise/withdraw cycle, 1 to 3 the
additional ones): each cycle re-enumerates local addresses and runs its
own builder calls; only cycle 0 checks its shutdown result. -/
structure GoodbyeEnv where
  ips : Nat → List String
  svcNew : Nat → Bool
  svcBuild : Nat → Bool
  bcBuild : Nat → Bool
  shutdown : Nat → Bool

/-- One iteration of the `for i in 1..=3` loop in `send_goodbye_message`:
sleep 200ms, rebuild the transient service, start it, sleep 50ms, shut it
down ignoring the shutdown result.  Builder failures return the error
through `?`. -/
def goodbye_repeat (env : GoodbyeEnv) (info : ServiceInfo) (i : Nat) (id : Nat) :
    CmdResult Unit × List Event :=
  if env.svcNew i = false then (.err (.goodbyeInvalidParams i), [.sleepMs 200])
  else if env.svcBuild i = false then (.err (.goodbyeServiceBuildFailed i), [.sleepMs 200])
  else if env.bcBuild i = false then (.err (.goodbyeBroadcasterBuildFailed i), [.sleepMs 200])
  else (.ok (),
    [.sleepMs 200, .buildSvc (built_service_of info (env.ips i)),
     .runBc id, .sleepMs 50, .shutdownBc id])

/-- The cycle part of `send_goodbye_message`, given the stored record:
first cycle (build, start, sleep 100ms, shutdown with its result checked),
then the three repeat cycles, then the final 300ms propagation delay.
Returns result, trace, and how many background-handle identities were
consumed. -/
def goodbye_cycles (env : GoodbyeEnv) (info : ServiceInfo) (base : Nat) :
    CmdResult Unit × List Event × Nat :=
  if env.ips 0 = [] then (.err .goodbyeNoAddress, [], 0)
  else if env.svcNew 0 = false then (.err (.goodbyeInvalidParams 0), [], 0)
  else if env.svcBuild 0 = false then (.err (.goodbyeServiceBuildFailed 0), [], 0)
  else if env.bcBuild 0 = false then (.err (.goodbyeBroadcasterBuildFailed 0), [], 0)
  else
    let tr0 : List Event :=
      [.buildSvc (built_service_of info (env.ips 0)), .runBc base,
       .sleepMs 100, .shutdownBc base]
    if env.shutdown 0 = false then (.err .goodbyeShutdownFailed, tr0, 1)
    else
      let r1 := goodbye_repeat env info 1 (base + 1)
      match r1.1 with
      | .err e => (.err e, tr0 ++ r1.2, 2)
      | .ok _ =>
        let r2 := goodbye_repeat env info 2 (base + 2)
        match r2.1 with
        | .err e => (.err e, tr0 ++ r1.2 ++ r2.2, 3)
        | .ok _ =>
          let r3 := goodbye_repeat env info 3 (base + 3)
          match r3.1 with
          | .err e => (.err e, tr0 ++ r1.2 ++ r2.2 ++ r3.2, 4)
          | .ok _ => (.ok (), tr0 ++ r1.2 ++ r2.2 ++ r3.2 ++ [.sleepMs 300], 4)

/-- `send_goodbye_message` from main.rs: with no stored record it only
logs and returns ok; with a record it runs the goodbye cycles.  Only the
`nextId` counter of the state can change. -/
def send_goodbye_message (env : GoodbyeEnv) (st : MdnsState) : OpOut Unit :=
  match st.last_service_info with
  | none => ⟨.ok (), st, []⟩
  | some info =>
    let r := goodbye_cycles env info st.nextId
    ⟨r.1, { st with nextId := st.nextId + r.2.2 }, r.2.1⟩

/-- External-world outcomes `unregister_service` consumes: the result of
the live broadcaster's shutdown, and the goodbye oracles. -/
structure UnregEnv where
  bcShutdownOk : Bool
  g : GoodbyeEnv

/-- `unregister_service` from main.rs: a no-op when nothing is registered;
otherwise takes the broadcaster handle, shuts it down (propagating a
shutdown error, with the slot already cleared), then sends the goodbye
sequence ignoring its result, then clears the stored record. -/
def unregister_service (env : UnregEnv) (st : MdnsState) : OpOut Unit :=
  match st.broadcaster with
  | none => ⟨.ok (), st, []⟩
  | some h =>
    let st1 := { st with broadcaster := none }
    if env.bcShutdownOk = false then
      ⟨.err .broadcastShutdownFailed, st1, [.shutdownBc h]⟩
    else
      let g := send_goodbye_message env.g st1
      ⟨.ok (), { g.st with last_service_info := none }, .shutdownBc h :: g.tr⟩

/-- External-world outcomes `start_discovery` consumes: validity of the
service type and the watch builder's result. -/
structure DiscEnv where
  svcOk : Bool
  buildOk : Bool

/-- `start_discovery` from main.rs: idempotent when already running,
otherwise builds the watch and stores its handle. -/
def start_discovery (env : DiscEnv) (st : MdnsState) : OpOut Unit :=
  if st.discovery.isSome then ⟨.ok (), st, []⟩
  else if env.svcOk = false then ⟨.err .invalidServiceType, st, []⟩
  else if env.buildOk = false then ⟨.err .discoveryBuildFailed, st, []⟩
  else ⟨.ok (), { st with discovery := some st.nextId, nextId := st.nextId + 1 },
        [.runDisc st.nextId]⟩

/-- `stop_discovery` from main.rs: a no-op when not running; otherwise
takes the handle and shuts it down, propagating a shutdown error (the
slot is already cleared by the take). -/
def stop_discovery (shutdownOk : Bool) (st : MdnsState) : OpOut Unit :=
  match st.discovery with
  | none => ⟨.ok (), st, []⟩
  | some h =>
    if shutdownOk then ⟨.ok (), { st with discovery := none }, [.shutdownDisc h]⟩
    else ⟨.err .discoveryShutdownFailed, { st with discovery := none }, [.shutdownDisc h]⟩

/-- `start_socket_server` from main.rs: returns the existing port when
already running; otherwise picks an unused ephemeral port (`pick` is the
port picker's answer), spawns the accept loop and stores port and task
handle. -/
def start_socket_server (pick : Option Nat) (st : MdnsState) : OpOut Nat :=
  match st.socket_server_port with
  | some p => ⟨.ok p, st, []⟩
  | none =>
    match pick with
    | none => ⟨.err .noUnusedPort, st, []⟩
    | some p =>
      ⟨.ok p,
       { st with socket_server_port := some p, socket_server_handle := some st.nextId,
                 nextId := st.nextId + 1 },
       [.spawnServer st.nextId p]⟩

/-- `stop_socket_server` from main.rs: aborts the task when present and
clears the port; always ok. -/
def stop_socket_server (st : MdnsState) : OpOut Unit :=
  match st.socket_server_handle with
  | some h =>
    ⟨.ok (), { st with socket_server_handle := none, socket_server_port := none },
     [.abortTask h]⟩
  | none => ⟨.ok (), { st with socket_server_port := none }, []⟩

/-- External-world outcomes `cleanup` consumes: the two fallible shutdowns
(the task abort is infallible). -/
structure CleanupEnv where
  bcShutdownOk : Bool
  discShutdownOk : Bool

/-- `cleanup` from main.rs: abort the socket server task, clear the port,
shut down the broadcaster, shut down discovery — each step attempted
regardless of earlier failures — and count the resources successfully
torn down; sleep 750ms at the end exactly when that count is positive.
The stored service info is not touched. -/
def cleanup (env : CleanupEnv) (st : MdnsState) : MdnsState × List Event :=
  let socketTr : List Event :=
    match st.socket_server_handle with
    | some h => [.abortTask h]
    | none => []
  let n1 : Nat :=
    match st.socket_server_handle with
    | some _ => 1
    | none => 0
  let bcTr : List Event :=
    match st.broadcaster with
    | some h => [.shutdownBc h]
    | none => []
  let n2 : Nat :=
    match st.broadcaster with
    | some _ => if env.bcShutdownOk then 1 else 0
    | none => 0
  let discTr : List Event :=
    match st.discovery with
    | some h => [.shutdownDisc h]
    | none => []
  let n3 : Nat :=
    match st.discovery with
    | some _ => if env.discShutdownOk then 1 else 0
    | none => 0
  let servicesCleaned := n1 + n2 + n3
  let tailTr : List Event := if servicesCleaned > 0 then [.sleepMs 750] else []
  ({ st with socket_server_handle := none, socket_server_port := none,
             broadcaster := none, discovery := none },
   socketTr ++ bcTr ++ discTr ++ tailTr)

/-- `force_cleanup` from main.rs: runs `cleanup` and always returns ok. -/
def force_cleanup (env : CleanupEnv) (st : MdnsState) : OpOut Unit :=
  let c := cleanup env st
  ⟨.ok (), c.1, c.2⟩

/-! ## Discovery record extraction (`emit_responder`) -/

/-- The resource-record payloads `emit_responder` distinguishes: an SRV
record (target host and port), a TXT record (each datum is the result of
the UTF-8 check on one byte string: `some` when valid, dropped when not),
or anything else. -/
inductive RData where
  | srv (target : String) (port : Nat) : RData
  | txtRec (strs : List (Option String)) : RData
  | otherData : RData
deriving DecidableEq

/-- One additional resource record of a response packet: its name and its
(possibly absent) payload. -/
structure DnsRecord where
  name : String
  rdata : Option RData
deriving DecidableEq

/-- The payload emitted to the host application for one responder. -/
structure FoundDevice where
  name : String
  hostname : String
  addr : String
  port : Nat
  txt : List String
deriving DecidableEq

/-- The four mutable locals of `emit_responder`'s record walk. -/
structure ScanAcc where
  name : String
  port : Nat
  hostname : String
  txt : List String
deriving DecidableEq

/-- Rust `trim_end_matches` on the separator character: drop every
trailing dot. -/
def trim_trailing_dots (s : String) : String :=
  ((s.toList.reverse.dropWhile (fun c => c = '.')).reverse).asString

/-- The body of `emit_responder`'s `for rec in packet.additionals()` loop:
an SRV record overwrites hostname, port and name (separators trimmed), a
TXT record appends its valid UTF-8 strings in order, anything else is
skipped. -/
def scan_record (acc : ScanAcc) (r : DnsRecord) : ScanAcc :=
  match r.rdata with
  | some (.srv target port) =>
      { acc with hostname := trim_trailing_dots target, port := port,
                 name := trim_trailing_dots r.name }
  | some (.txtRec strs) => { acc with txt := acc.txt ++ strs.filterMap id }
  | some .otherData => acc
  | none => acc

/-- The full record walk, in packet order. -/
def scan_records : List DnsRecord → ScanAcc → ScanAcc
  | [], acc => acc
  | r :: rest, acc => scan_records rest (scan_record acc r)

/-- `emit_responder` from main.rs: walk the additionals starting from
empty strings and zero port, then emit the device payload
unconditionally. -/
def emit_responder (addr : String) (additionals : List DnsRecord) : FoundDevice :=
  let acc := scan_records additionals ⟨"", 0, "", []⟩
  ⟨acc.name, acc.hostname, addr, acc.port, acc.txt⟩

/-- Following the spec's words: the SRV-equivalent record whose data
survives a scan of all records in order, i.e. the last one (record name,
target, port). -/
def last_srv : List DnsRecord → Option (String × String × Nat)
  | [] => none
  | r :: rest =>
    match last_srv rest with
    | some x => some x
    | none =>
      match r.rdata with
      | some (.srv target port) => some (r.name, target, port)
      | _ => none

/-- Following the spec's words: the TXT strings of all text records,
collected in encounter order. -/
def collect_txt : List DnsRecord → List String
  | [] => []
  | r :: rest =>
    (match r.rdata with
     | some (.txtRec strs) => strs.filterMap id
     | _ => []) ++ collect_txt rest

/-! ## Lifecycle operations as a single step relation (for the state
invariant) -/

/-- One invocable lifecycle operation, together with the external-world
outcomes it consumes. -/
inductive LifecycleOp where
  | reg (env : RegEnv) (service_type instance_name : String) (port : Nat)
      (txt : List String) : LifecycleOp
  | unreg (env : UnregEnv) : LifecycleOp
  | discStart (env : DiscEnv) : LifecycleOp
  | discStop (shutdownOk : Bool) : LifecycleOp
  | sockStart (pick : Option Nat) : LifecycleOp
  | sockStop : LifecycleOp
  | clean (env : CleanupEnv) : LifecycleOp
  | goodbye (env : GoodbyeEnv) : LifecycleOp

/-- The state reached by running one lifecycle operation. -/
def run_op : LifecycleOp → MdnsState → MdnsState
  | .reg env t i p txt, st => (register_service env st t i p txt).st
  | .unreg env, st => (unregister_service env st).st
  | .discStart env, st => (start_discovery env st).st
  | .discStop ok, st => (stop_discovery ok st).st
  | .sockStart pick, st => (start_socket_server pick st).st
  | .sockStop, st => (stop_socket_server st).st
  | .clean env, st => (force_cleanup env st).st
  | .goodbye env, st => (send_goodbye_message env st).st

/-- The direction of the spec invariant that the code does maintain: a
live broadcaster handle always has a stored service record. -/
def broadcaster_implies_record (st : MdnsState) : Prop :=
  st.broadcaster.isSome = true → st.last_service_info.isSome = true

/-- The spec invariant as claimed: a service record is stored if and only
if a broadcaster handle is live. -/
def record_iff_broadcaster (st : MdnsState) : Prop :=
  st.last_service_info.isSome = st.broadcaster.isSome

/-- The claimed re-registration ordering: some withdrawal of the old
handle occurs in the trace strictly before some start of the new one. -/
def withdraw_before_start (tr : List Event) (oldId newId : Nat) : Prop :=
  ∃ i j : Fin tr.length, i.val < j.val ∧
    tr.get i = Event.shutdownBc oldId ∧ tr.get j = Event.runBc newId

/-! ## Goodbye traces (specification side) -/

/-- The goodbye trace the code produces on an all-success run: first cycle
with a 100ms settle, three repeats prefixed by 200ms waits with a 50ms
settle each, and a final 300ms propagation delay. -/
def goodbye_full_trace (env : GoodbyeEnv) (info : ServiceInfo) (base : Nat) :
    List Event :=
  [.buildSvc (built_service_of info (env.ips 0)), .runBc base,
   .sleepMs 100, .shutdownBc base]
  ++ [.sleepMs 200, .buildSvc (built_service_of info (env.ips 1)),
      .runBc (base + 1), .sleepMs 50, .shutdownBc (base + 1)]
  ++ [.sleepMs 200, .buildSvc (built_service_of info (env.ips 2)),
      .runBc (base + 2), .sleepMs 50, .shutdownBc (base + 2)]
  ++ [.sleepMs 200, .buildSvc (built_service_of info (env.ips 3)),
      .runBc (base + 3), .sleepMs 50, .shutdownBc (base + 3)]
  ++ [.sleepMs 300]

/-- Following the claim's words: four identical advertise / wait ~100ms /
withdraw cycles, the last three spaced by ~200ms waits, then a final
~300ms delay. -/
def goodbye_claimed_trace (env : GoodbyeEnv) (info : ServiceInfo) (base : Nat) :
    List Event :=
  [.buildSvc (built_service_of info (env.ips 0)), .runBc base,
   .sleepMs 100, .shutdownBc base]
  ++ [.sleepMs 200, .buildSvc (built_service_of info (env.ips 1)),
      .runBc (base + 1), .sleepMs 100, .shutdownBc (base + 1)]
  ++ [.sleepMs 200, .buildSvc (built_service_of info (env.ips 2)),
      .runBc (base + 2), .sleepMs 100, .shutdownBc (base + 2)]
  ++ [.sleepMs 200, .buildSvc (built_service_of info (env.ips 3)),
      .runBc (base + 3), .sleepMs 100, .shutdownBc (base + 3)]
  ++ [.sleepMs 300]

/-- How many transient broadcasters a trace actually started. -/
def run_broadcast_count (tr : List Event) : Nat :=
  (tr.filter fun e => match e with | .runBc _ => true | _ => false).length

/-! ## Concrete fixtures for witnesses and counterexamples -/

/-- A register environment where every external step succeeds. -/
def regEnvOk : RegEnv := ⟨["ip1"], true, true, true⟩

/-- A stored service record. -/
def infoA : ServiceInfo := ⟨"_t._tcp.local.", "A", 9000, ["role=desktop", "socketPort=9100"]⟩

/-- A state with a live broadcaster (handle 0), its stored record, and a
running socket server. -/
def stLive : MdnsState := ⟨none, some 0, some infoA, some 9100, some 7, 1⟩

/-- A fresh state where nothing is running. -/
def stNoSocket : MdnsState := ⟨none, none, none, none, none, 0⟩

/-- A goodbye environment where every external step succeeds. -/
def gEnvOk : GoodbyeEnv :=
  ⟨fun _ => ["ip1"], fun _ => true, fun _ => true, fun _ => true, fun _ => true⟩

/-- A goodbye environment where every withdrawal after the first cycle
fails. -/
def gEnvShutFail : GoodbyeEnv :=
  ⟨fun _ => ["ip1"], fun _ => true, fun _ => true, fun _ => true, fun i => i == 0⟩

/-- A goodbye environment where the service build of repeat cycle 1
fails and everything else succeeds. -/
def gEnvBuild1Fail : GoodbyeEnv :=
  ⟨fun _ => ["ip1"], fun _ => true, fun i => !(i == 1), fun _ => true, fun _ => true⟩

/-- An unregister environment where every external step succeeds. -/
def unregEnvOk : UnregEnv := ⟨true, gEnvOk⟩

/-- A cleanup environment where both shutdowns succeed. -/
def cleanEnvOk : CleanupEnv := ⟨true, true⟩

/-! ## Claim theorems -/

lemma dispatch_eq_table (msgType action : String) (j : Json) :
    dispatch_command true msgType action j = row_calls (table_row msgType action j) := by
  unfold dispatch_command table_row handle_presentation_command handle_cursor_command
  split_ifs <;>
    first
      | rfl
      | exact False.elim (by assumption)
      | (cases (j.get "deltaX").bind Json.asI64 <;>
          cases (j.get "deltaY").bind Json.asI64 <;> rfl)
      | (cases (j.get "direction").bind Json.asStr <;>
          cases (j.get "delta").bind Json.asI64 <;> rfl)

lemma data_fallback_eq_row (decode : String → Option Json) (j : Json) :
    handle_data_fallback decode true j = row_calls (data_row decode j) := by
  unfold handle_data_fallback data_row
  cases (j.get "data").bind Json.asStr with
  | some dataStr =>
    dsimp only []
    cases decode dataStr with
    | some inner =>
      dsimp only []
      cases (inner.get "type").bind Json.asStr with
      | some t2 =>
        dsimp only []
        cases (inner.get "action").bind Json.asStr with
        | some a2 => exact dispatch_eq_table t2 a2 inner
        | none => rfl
      | none => rfl
    | none => rfl
  | none => rfl

lemma handle_parsed_eq_envelope (decode : String → Option Json) (j : Json) :
    handle_parsed_message decode true j = row_calls (envelope_row decode j) := by
  unfold handle_parsed_message envelope_row
  cases (j.get "type").bind Json.asStr with
  | some msgType =>
    cases (j.get "action").bind Json.asStr with
    | some action => exact dispatch_eq_table msgType action j
    | none => exact data_fallback_eq_row decode j
  | none => exact data_fallback_eq_row decode j

/-- Claim C1: for every message received on a command-channel connection
(with the actuation backend available, modelled by `true`), if its parse
result matches a row of the §4.5 table — directly or nested under `data` —
the corresponding actuation call is invoked exactly once, and for every
other shape (unparsable JSON, missing type/action, unknown type, missing
required parameters) no actuation call is invoked; in both cases the read
loop keeps running. -/
theorem c1_command_dispatch (decode : String → Option Json) (msg : String) :
    connection_step decode true (.chunk msg) =
      (row_calls ((decode msg.trim).bind (envelope_row decode)), true) := by
  unfold connection_step
  dsimp only []
  cases decode msg.trim with
  | some j => exact congrArg (fun l => (l, true)) (handle_parsed_eq_envelope decode j)
  | none => rfl

/-- Claim C2 counterexample: at a concrete state with a live broadcaster
(handle 0) and all external steps succeeding, `register_service` does
attempt the old handle's withdrawal, but nowhere in the trace does that
withdrawal precede the start of the new advertisement — the new one is
started first. -/
theorem c2_counterexample :
    Event.shutdownBc 0 ∈ (register_service regEnvOk stLive "_t._tcp.local." "A" 9000 []).tr ∧
    ¬ withdraw_before_start
        (register_service regEnvOk stLive "_t._tcp.local." "A" 9000 []).tr 0 stLive.nextId := by
  constructor
  · decide
  · unfold withdraw_before_start
    decide

/-- Claim C2 (amended): on a successful re-registration the new
advertisement is built and started first; the previous handle's
withdrawal is then attempted before the call returns, and afterwards
exactly the new advertisement is live with its record stored. -/
theorem c2_register_replace_order (env : RegEnv) (st : MdnsState)
    (service_type instance_name : String) (port : Nat) (txt : List String)
    (sp old : Nat)
    (hsp : st.socket_server_port = some sp)
    (hb : st.broadcaster = some old)
    (hips : env.ips ≠ [])
    (hn : env.svcNewOk = true) (hs : env.svcBuildOk = true) (hbb : env.bcBuildOk = true) :
    register_service env st service_type instance_name port txt =
      ⟨.ok (),
       { st with broadcaster := some st.nextId,
                 last_service_info :=
                   some ⟨service_type, instance_name, port,
                         txt ++ ["socketPort=" ++ toString sp]⟩,
                 nextId := st.nextId + 1 },
       [.buildSvc ⟨service_type, instance_name, port, env.ips,
                   txt ++ ["socketPort=" ++ toString sp]⟩,
        .runBc st.nextId, .shutdownBc old]⟩ := by
  unfold register_service
  rw [hsp]
  dsimp only []
  rw [if_neg hips, hn, hs, hbb, hb]
  rfl

/-- Witness for the amended C2 theorem at a concrete input. -/
theorem c2_register_replace_order_witness :
    register_service regEnvOk stLive "_t._tcp.local." "A" 9000 [] =
      ⟨.ok (),
       { stLive with broadcaster := some stLive.nextId,
                     last_service_info :=
                       some ⟨"_t._tcp.local.", "A", 9000,
                             [] ++ ["socketPort=" ++ toString 9100]⟩,
                     nextId := stLive.nextId + 1 },
       [.buildSvc ⟨"_t._tcp.local.", "A", 9000, regEnvOk.ips,
                   [] ++ ["socketPort=" ++ toString 9100]⟩,
        .runBc stLive.nextId, .shutdownBc 0]⟩ :=
  c2_register_replace_order regEnvOk stLive "_t._tcp.local." "A" 9000 [] 9100 0
    rfl rfl (by decide) rfl rfl rfl

/-- Claim C4 counterexample: at a concrete input where both stated
preconditions hold (a non-loopback address exists, the identifiers are
valid) and the network layer accepts every build, `register_service`
still fails, because the socket server is not running — a third
precondition the claim omits. -/
theorem c4_counterexample :
    regEnvOk.ips ≠ [] ∧ regEnvOk.svcNewOk = true ∧ regEnvOk.svcBuildOk = true ∧
    regEnvOk.bcBuildOk = true ∧
    (register_service regEnvOk stNoSocket "_t._tcp.local." "A" 9000 []).res =
      .err .socketServerNotStarted := by
  refine ⟨by decide, rfl, rfl, rfl, rfl⟩

/-- Claim C4 (amended): `register_service` checks a running socket server
first (its own error), then returns the no-address error exactly when the
address list is empty, the invalid-params error exactly when the
identifiers are rejected, and succeeds exactly when all preconditions
hold and the network layer accepts both builds. -/
theorem c4_register_error_characterization (env : RegEnv) (st : MdnsState)
    (service_type instance_name : String) (port : Nat) (txt : List String) :
    ((register_service env st service_type instance_name port txt).res =
        .err .socketServerNotStarted ↔ st.socket_server_port = none) ∧
    ((register_service env st service_type instance_name port txt).res =
        .err .noAddress ↔ st.socket_server_port ≠ none ∧ env.ips = []) ∧
    ((register_service env st service_type instance_name port txt).res =
        .err .invalidServiceParams ↔
      st.socket_server_port ≠ none ∧ env.ips ≠ [] ∧ env.svcNewOk = false) ∧
    ((register_service env st service_type instance_name port txt).res = .ok () ↔
      st.socket_server_port ≠ none ∧ env.ips ≠ [] ∧ env.svcNewOk = true ∧
      env.svcBuildOk = true ∧ env.bcBuildOk = true) := by
  cases hsp : st.socket_server_port with
  | none => simp [register_service, hsp]
  | some sp =>
    by_cases hips : env.ips = []
    · simp [register_service, hsp, hips]
    · cases hn : env.svcNewOk
      · simp [register_service, hsp, hips, hn]
      · cases hs : env.svcBuildOk
        · simp [register_service, hsp, hips, hn, hs]
        · cases hbb : env.bcBuildOk
          · simp [register_service, hsp, hips, hn, hs, hbb]
          · cases hb : st.broadcaster <;>
              simp [register_service, hsp, hips, hn, hs, hbb, hb]

lemma send_goodbye_broadcaster (env : GoodbyeEnv) (st : MdnsState) :
    (send_goodbye_message env st).st.broadcaster = st.broadcaster := by
  unfold send_goodbye_message
  cases st.last_service_info <;> rfl

lemma send_goodbye_record (env : GoodbyeEnv) (st : MdnsState) :
    (send_goodbye_message env st).st.last_service_info = st.last_service_info := by
  unfold send_goodbye_message
  cases hsi : st.last_service_info with
  | none => exact hsi
  | some info => rfl

/-- Claim C3 counterexample: at a concrete state with a live broadcaster
and its stored record, the claimed iff-invariant holds before `cleanup`
but not after it — `cleanup` clears the broadcaster slot yet never clears
the stored service record. -/
theorem c3_counterexample :
    record_iff_broadcaster stLive ∧
    ¬ record_iff_broadcaster (cleanup cleanEnvOk stLive).1 := by
  unfold record_iff_broadcaster
  constructor
  · decide
  · decide

/-- Claim C3 (amended): every lifecycle operation preserves the direction
of the invariant that the code does maintain — a live broadcaster handle
implies a stored service record.  The converse direction is violated by
`cleanup` (see the counterexample), which leaves the record behind. -/
theorem c3_broadcaster_record_invariant (op : LifecycleOp) (st : MdnsState)
    (h : broadcaster_implies_record st) :
    broadcaster_implies_record (run_op op st) := by
  cases op with
  | reg env t i p txt =>
    show broadcaster_implies_record (register_service env st t i p txt).st
    unfold register_service
    cases st.socket_server_port with
    | none => exact h
    | some sp =>
      dsimp only []
      split_ifs <;> first | exact h | (intro _; rfl)
  | unreg env =>
    show broadcaster_implies_record (unregister_service env st).st
    unfold unregister_service
    cases st.broadcaster with
    | none => exact h
    | some hd =>
      dsimp only []
      split_ifs
      · intro hb
        simp at hb
      · intro hb
        simp only [send_goodbye_broadcaster] at hb
        simp at hb
  | discStart env =>
    show broadcaster_implies_record (start_discovery env st).st
    unfold start_discovery
    split_ifs <;> exact h
  | discStop ok =>
    show broadcaster_implies_record (stop_discovery ok st).st
    unfold stop_discovery
    cases st.discovery with
    | none => exact h
    | some hd =>
      dsimp only []
      split_ifs <;> exact h
  | sockStart pick =>
    show broadcaster_implies_record (start_socket_server pick st).st
    unfold start_socket_server
    cases st.socket_server_port with
    | some p => exact h
    | none =>
      cases pick with
      | none => exact h
      | some p => exact h
  | sockStop =>
    show broadcaster_implies_record (stop_socket_server st).st
    unfold stop_socket_server
    cases st.socket_server_handle with
    | some hd => exact h
    | none => exact h
  | clean env =>
    show broadcaster_implies_record (force_cleanup env st).st
    intro hb
    simp [force_cleanup, cleanup] at hb
  | goodbye env =>
    show broadcaster_implies_record (send_goodbye_message env st).st
    unfold broadcaster_implies_record
    rw [send_goodbye_broadcaster, send_goodbye_record]
    exact h

/-- Witness for the amended C3 theorem at a concrete operation and
state. -/
theorem c3_broadcaster_record_invariant_witness :
    broadcaster_implies_record stLive ∧
    broadcaster_implies_record (run_op (.clean cleanEnvOk) stLive) :=
  ⟨by intro _; rfl, c3_broadcaster_record_invariant (.clean cleanEnvOk) stLive (by intro _; rfl)⟩

/-- Claim C6 counterexample: at a concrete stored record with every
external step succeeding, the goodbye trace differs from the claimed
sequence of four identical cycles — the three repeat cycles settle for
50ms, not the ~100ms of the first cycle. -/
theorem c6_counterexample :
    (send_goodbye_message gEnvOk stLive).tr ≠ goodbye_claimed_trace gEnvOk infoA stLive.nextId := by
  decide

/-- Claim C6 (amended): given a stored record, a non-empty address
enumeration and an all-success network layer, the goodbye operation
performs exactly: build a transient advertisement identical to the stored
record, start it, wait ~100ms, withdraw it; then three more
advertise/withdraw cycles each preceded by a ~200ms wait and settling for
~50ms; then a final ~300ms propagation delay; and it returns ok having
consumed four background handles. -/
theorem c6_goodbye_sequence (env : GoodbyeEnv) (st : MdnsState) (info : ServiceInfo)
    (hinfo : st.last_service_info = some info)
    (hips : env.ips 0 ≠ [])
    (hsn : env.svcNew = fun _ => true) (hsb : env.svcBuild = fun _ => true)
    (hbb : env.bcBuild = fun _ => true) (hsd : env.shutdown 0 = true) :
    send_goodbye_message env st =
      ⟨.ok (), { st with nextId := st.nextId + 4 }, goodbye_full_trace env info st.nextId⟩ := by
  unfold send_goodbye_message
  rw [hinfo]
  dsimp only []
  unfold goodbye_cycles goodbye_repeat goodbye_full_trace
  rw [if_neg hips]
  simp [hsn, hsb, hbb, hsd]

/-- Witness for the amended C6 theorem at a concrete input. -/
theorem c6_goodbye_sequence_witness :
    send_goodbye_message gEnvOk stLive =
      ⟨.ok (), { stLive with nextId := stLive.nextId + 4 },
       goodbye_full_trace gEnvOk infoA stLive.nextId⟩ :=
  c6_goodbye_sequence gEnvOk stLive infoA rfl (by decide) rfl rfl rfl rfl

/-- Claim C5 counterexample: with the service build of repeat cycle 1
failing and every other external step succeeding, the goodbye operation
returns that cycle's error and never starts the remaining cycles — only
the first cycle's transient broadcaster ever ran. -/
theorem c5_counterexample :
    (send_goodbye_message gEnvBuild1Fail stLive).res = .err (.goodbyeServiceBuildFailed 1) ∧
    run_broadcast_count (send_goodbye_message gEnvBuild1Fail stLive).tr = 1 := by
  constructor
  · rfl
  · rfl

/-- Claim C5 (amended): only withdrawal failures in the three repeat
cycles are tolerated — their shutdown results are ignored, so with the
builders succeeding and the first cycle's withdrawal succeeding, the
operation returns ok and all four transient broadcasters are started, no
matter how the later withdrawals fare.  (Build failures in any cycle, and
any failure in the first cycle, abort the remaining cycles with an error
— see the counterexample.) -/
theorem c5_goodbye_withdraw_failures_tolerated (env : GoodbyeEnv) (st : MdnsState)
    (info : ServiceInfo)
    (hinfo : st.last_service_info = some info)
    (hips : env.ips 0 ≠ [])
    (hsn : env.svcNew = fun _ => true) (hsb : env.svcBuild = fun _ => true)
    (hbb : env.bcBuild = fun _ => true) (hsd : env.shutdown 0 = true) :
    (send_goodbye_message env st).res = .ok () ∧
    run_broadcast_count (send_goodbye_message env st).tr = 4 := by
  unfold send_goodbye_message
  rw [hinfo]
  dsimp only []
  unfold goodbye_cycles goodbye_repeat
  rw [if_neg hips]
  simp [hsn, hsb, hbb, hsd, run_broadcast_count]

/-- Witness for the amended C5 theorem: every withdrawal after the first
cycle fails, yet the operation is ok and all four cycles ran. -/
theorem c5_goodbye_withdraw_failures_tolerated_witness :
    (send_goodbye_message gEnvShutFail stLive).res = .ok () ∧
    run_broadcast_count (send_goodbye_message gEnvShutFail stLive).tr = 4 :=
  c5_goodbye_withdraw_failures_tolerated gEnvShutFail stLive infoA rfl (by decide)
    rfl rfl rfl rfl

/-- Claim C7: `unregister_service` on an unregistered service returns
success and changes nothing; on a live broadcaster whose withdrawal
succeeds it withdraws the handle first, then runs the goodbye send on the
state still holding the stored record, then clears the record, returning
ok regardless of the goodbye outcome. -/
theorem c7_unregister_inorder (env : UnregEnv) (st : MdnsState) :
    (st.broadcaster = none → unregister_service env st = ⟨.ok (), st, []⟩) ∧
    (∀ hd, st.broadcaster = some hd → env.bcShutdownOk = true →
      unregister_service env st =
        ⟨.ok (),
         { (send_goodbye_message env.g { st with broadcaster := none }).st with
             last_service_info := none },
         .shutdownBc hd :: (send_goodbye_message env.g { st with broadcaster := none }).tr⟩) := by
  constructor
  · intro hb
    unfold unregister_service
    rw [hb]
  · intro hd hb hok
    unfold unregister_service
    rw [hb]
    dsimp only []
    rw [hok]
    rfl

/-- Witness for the C7 theorem at a concrete live state. -/
theorem c7_unregister_inorder_witness :
    unregister_service unregEnvOk stLive =
      ⟨.ok (),
       { (send_goodbye_message unregEnvOk.g { stLive with broadcaster := none }).st with
           last_service_info := none },
       .shutdownBc 0 :: (send_goodbye_message unregEnvOk.g { stLive with broadcaster := none }).tr⟩ :=
  (c7_unregister_inorder unregEnvOk stLive).2 0 rfl rfl

/-- Claim C8: `cleanup` clears all three resource slots (task handle and
port, broadcaster, discovery), attempts each teardown regardless of the
other steps' outcomes (the corresponding events are in the trace whenever
the slot was occupied, whatever the shutdown oracles say), never surfaces
an error (`force_cleanup` always returns ok), and sleeps the ~750ms
propagation delay exactly when at least one resource was actually torn
down — the socket task (its abort cannot fail) or a successfully shut
down broadcaster or discovery watcher. -/
theorem c8_cleanup_best_effort (env : CleanupEnv) (st : MdnsState) :
    (cleanup env st).1.socket_server_handle = none ∧
    (cleanup env st).1.socket_server_port = none ∧
    (cleanup env st).1.broadcaster = none ∧
    (cleanup env st).1.discovery = none ∧
    (force_cleanup env st).res = .ok () ∧
    (match st.socket_server_handle with
     | some h => Event.abortTask h ∈ (cleanup env st).2
     | none => True) ∧
    (match st.broadcaster with
     | some h => Event.shutdownBc h ∈ (cleanup env st).2
     | none => True) ∧
    (match st.discovery with
     | some h => Event.shutdownDisc h ∈ (cleanup env st).2
     | none => True) ∧
    (Event.sleepMs 750 ∈ (cleanup env st).2 ↔
      (st.socket_server_handle.isSome = true ∨
       (st.broadcaster.isSome = true ∧ env.bcShutdownOk = true) ∨
       (st.discovery.isSome = true ∧ env.discShutdownOk = true))) := by
  cases hsh : st.socket_server_handle <;> cases hbo : st.broadcaster <;>
    cases hdo : st.discovery <;> cases hbs : env.bcShutdownOk <;>
    cases hds : env.discShutdownOk <;>
    simp [cleanup, force_cleanup, hsh, hbo, hdo, hbs, hds]

lemma scan_records_spec (recs : List DnsRecord) (acc : ScanAcc) :
    scan_records recs acc =
      ⟨(match last_srv recs with
        | some x => trim_trailing_dots x.1
        | none => acc.name),
       (match last_srv recs with
        | some x => x.2.2
        | none => acc.port),
       (match last_srv recs with
        | some x => trim_trailing_dots x.2.1
        | none => acc.hostname),
       acc.txt ++ collect_txt recs⟩ := by
  induction recs generalizing acc with
  | nil =>
    cases acc
    simp [scan_records, last_srv, collect_txt]
  | cons r rest ih =>
    rw [scan_records, ih]
    cases hl : last_srv rest with
    | some x =>
      cases hr : r.rdata with
      | none => simp [scan_record, last_srv, collect_txt, hl, hr, List.append_assoc]
      | some d =>
        cases d <;> simp [scan_record, last_srv, collect_txt, hl, hr, List.append_assoc]
    | none =>
      cases hr : r.rdata with
      | none => simp [scan_record, last_srv, collect_txt, hl, hr, List.append_assoc]
      | some d =>
        cases d <;> simp [scan_record, last_srv, collect_txt, hl, hr, List.append_assoc]

/-- Claim C9: for every response packet, the emitted device is computed by
scanning all additional records in order — the surviving (last)
SRV-equivalent record supplies hostname, port, and name with trailing
separators trimmed; TXT-equivalent records contribute their valid UTF-8
strings in encounter order; with no SRV record present the hostname is
empty and the port zero, and the device payload is still produced. -/
theorem c9_emit_responder_extraction (addr : String) (recs : List DnsRecord) :
    emit_responder addr recs =
      ⟨(match last_srv recs with
        | some x => trim_trailing_dots x.1
        | none => ""),
       (match last_srv recs with
        | some x => trim_trailing_dots x.2.1
        | none => ""),
       addr,
       (match last_srv recs with
        | some x => x.2.2
        | none => 0),
       collect_txt recs⟩ := by
  unfold emit_responder
  rw [scan_records_spec]
  cases last_srv recs <;> simp

/-- A concrete scroll envelope: direction `"up"`, delta `2^31`. -/
def jScrollBig : Json :=
  .obj [("type", .str "cursor"), ("action", .str "scroll"),
        ("direction", .str "up"), ("delta", .num 2147483648)]

/-- Claim C10 counterexample: a scroll command with direction `"up"` and
delta `2^31` (which `as_i64` accepts) is actuated with magnitude `-2^31`,
the 32-bit truncation of the delta — not `+delta` as claimed. -/
theorem c10_counterexample :
    handle_cursor_command true "scroll" jScrollBig = [.scroll (-2147483648)] ∧
    (-2147483648 : Int) ≠ 2147483648 := by
  constructor
  · rfl
  · decide

/-- Claim C10 (amended): for a scroll command whose integer delta lies
strictly within the signed 32-bit range, the actuated magnitude is
`+delta` exactly when the direction string is `"up"` and `-delta` for
every other direction string (any value other than `"up"` is treated as
down rather than rejected); deltas outside that range are first reduced
modulo `2^32` by the Rust `as i32` casts. -/
theorem c10_scroll_direction (j : Json) (direction : String) (delta : Int)
    (hdir : (j.get "direction").bind Json.asStr = some direction)
    (hdelta : (j.get "delta").bind Json.asI64 = some delta)
    (hlo : -2147483648 < delta) (hhi : delta < 2147483648) :
    handle_cursor_command true "scroll" j =
      [.scroll (if direction = "up" then delta else -delta)] := by
  have hw : wrap32 delta = delta := by
    unfold wrap32
    omega
  have hw2 : wrap32 (-(wrap32 delta)) = -delta := by
    rw [hw]
    unfold wrap32
    omega
  have hred : handle_cursor_command true "scroll" j =
      (match (j.get "direction").bind Json.asStr with
       | some d =>
         match (j.get "delta").bind Json.asI64 with
         | some dl => [Actuation.scroll (if d = "up" then wrap32 dl else wrap32 (-(wrap32 dl)))]
         | none => []
       | none => []) := rfl
  rw [hred, hdir]
  dsimp only []
  rw [hdelta]
  dsimp only []
  rw [hw2, hw]

/-- Witness for the amended C10 theorem: an unrecognized direction string
is treated as down and negates the delta. -/
theorem c10_scroll_direction_witness :
    handle_cursor_command true "scroll"
        (.obj [("direction", .str "sideways"), ("delta", .num 7)]) =
      [.scroll (-7)] :=
  (c10_scroll_direction (.obj [("direction", .str "sideways"), ("delta", .num 7)])
      "sideways" 7 rfl rfl (by decide) (by decide)).trans (by decide)
